import Mathlib

/-!
Verification model of the Cloudflare Hasura caching worker (`src/index.js`).

The worker intercepts `POST /v1/graphql` requests, classifies them as query
or mutation (`blockMutation`), derives a cache key from the URL path, the
`X-Cache-TTL` request header and the request body (`createCacheKey`),
evaluates freshness of a cached entry, and serves or repopulates the cache
(`handlePostRequest`).  A companion `GET /auth` endpoint (`handleAuthWebhook`)
gates access by source IP (`isIPAllowed`) and returns a role decision.

The JavaScript is embedded shallowly: header maps become association lists
with JS `Headers.append` / `Headers.set` / `Headers.get` semantics, JS
`parseInt(s, 10)` becomes an explicit partial decimal parser, JS truthiness
of nullable strings is made explicit, and the SHA-256 digest (a WebCrypto
platform primitive, not repository code) is a function parameter; claims
that rely on its collision resistance take pointwise digest-distinctness
hypotheses.
-/

namespace CFWorker

/-- `MIN_CACHE_TTL` constant from the source (seconds). -/
def MIN_CACHE_TTL : Int := 8

/-- JS truthiness of a nullable string: `null` / `undefined` / `""` are falsy. -/
def jsTruthyOpt : Option String → Bool
  | none => false
  | some s => !(s == "")

/-- Whitespace in the sense of the JS regex backslash-s and of the leading
skip of `parseInt` (ECMAScript WhiteSpace and LineTerminator code points). -/
def isJsSpace (c : Char) : Bool :=
  let n := c.toNat
  n == 0x20 || n == 0x09 || n == 0x0a || n == 0x0d || n == 0x0b || n == 0x0c ||
  n == 0xa0 || n == 0x1680 || (0x2000 <= n && n <= 0x200a) ||
  n == 0x2028 || n == 0x2029 || n == 0x202f || n == 0x205f ||
  n == 0x3000 || n == 0xfeff

/-- Value of the longest leading run of decimal digits; `none` when the first
character is not a digit (JS `parseInt` yields `NaN` there). -/
def leadingDigitsVal (cs : List Char) : Option Nat :=
  match cs.takeWhile Char.isDigit with
  | [] => none
  | ds => some (ds.foldl (fun acc c => 10 * acc + (c.toNat - '0'.toNat)) 0)

/-- JS `parseInt(x, 10)` on a nullable string: skip leading whitespace, take
an optional sign, then the longest digit prefix; `none` models `NaN`
(`parseInt(null, 10)` coerces `null` to `"null"` and is also `NaN`). -/
def jsParseInt10 : Option String → Option Int
  | none => none
  | some s =>
    match s.data.dropWhile isJsSpace with
    | '-' :: rest => (leadingDigitsVal rest).map (fun n => -(n : Int))
    | '+' :: rest => (leadingDigitsVal rest).map (fun n => (n : Int))
    | cs => (leadingDigitsVal cs).map (fun n => (n : Int))

/-- JS `x || d` for a parsed integer: `NaN` (`none`) and `0` are falsy and
fall back to `d`. -/
def jsOrElse : Option Int → Int → Int
  | none, d => d
  | some n, d => if n == 0 then d else n

/-- Effective TTL of a request, from `handlePostRequest`:
`let clientTTL = parseInt(request.headers.get('X-Cache-TTL'), 10);
if (isNaN(clientTTL) || clientTTL < MIN_CACHE_TTL) clientTTL = MIN_CACHE_TTL`. -/
def effectiveTTL (hdr : Option String) : Int :=
  match jsParseInt10 hdr with
  | none => MIN_CACHE_TTL
  | some n => if n < MIN_CACHE_TTL then MIN_CACHE_TTL else n

/-- TTL value embedded in the cache key, from `createCacheKey`:
`const clientTTL = parseInt(request.headers.get('X-Cache-TTL'), 10) || MIN_CACHE_TTL`.
Unlike `effectiveTTL`, values between 1 and 7 and negative values are kept
as-is; only `NaN` and `0` fall back to the minimum. -/
def keyClientTTL (hdr : Option String) : Int :=
  jsOrElse (jsParseInt10 hdr) MIN_CACHE_TTL

/-- Core of `createCacheKey` for a numeric TTL: the derived request URL path
`pathname + "/" + digest("ttl-" + ttl) + "/" + digest(body)`. -/
def cacheKeyPathTTL (digest : String → String) (path : String) (ttl : Int)
    (body : String) : String :=
  path ++ "/" ++ digest ("ttl-" ++ toString ttl) ++ "/" ++ digest body

/-- `createCacheKey(request, body)`: the cache key (modelled as the derived
URL path) for a request with the given path, `X-Cache-TTL` header and body. -/
def cacheKeyPath (digest : String → String) (path : String)
    (ttlHdr : Option String) (body : String) : String :=
  cacheKeyPathTTL digest path (keyClientTTL ttlHdr) body

/-- JSON values, as produced by `JSON.parse` (the payload of numbers is
irrelevant to the worker, an `Int` stands in for the JS number). -/
inductive JsonVal where
  | null
  | bool (b : Bool)
  | num (n : Int)
  | str (s : String)
  | arr (xs : List JsonVal)
  | obj (fields : List (String × JsonVal))

/-- Remove every JS-whitespace character: `q.replace(/\s/g, '')`. -/
def stripJsWs (s : String) : String :=
  ⟨s.data.filter (fun c => !isJsSpace c)⟩

/-- Index of the first occurrence of `pat` in a character list, `none` when
absent. -/
def firstIndexOf (pat : List Char) : List Char → Option Nat
  | [] => if pat.isEmpty then some 0 else none
  | c :: rest =>
    if pat.isPrefixOf (c :: rest) then some 0
    else (firstIndexOf pat rest).map (· + 1)

/-- JS `s.indexOf(pat)`: first occurrence index, `-1` when absent. -/
def jsIndexOf (s pat : String) : Int :=
  match firstIndexOf pat.data s.data with
  | some n => (n : Int)
  | none => -1

/-- `blockMutation(req)`: parse the body as JSON (`none` = parse failure),
read `body.query`, strip whitespace and test
`...indexOf("mutation") == 0`; any exception (missing / non-string `query`
field, unparseable body) yields `false`.  JSON objects with duplicate keys
keep the last occurrence, hence the lookup on the reversed field list. -/
def blockMutation : Option JsonVal → Bool
  | some (JsonVal.obj fields) =>
    match List.lookup "query" fields.reverse with
    | some (JsonVal.str q) => jsIndexOf (stripJsWs q) "mutation" == 0
    | _ => false
  | _ => false

/-- Header map with JS `Headers` multi-value semantics (an ordered list of
name/value pairs; names are used with consistent capitalization throughout
the worker, so case folding is not modelled). -/
structure HeadersM where
  entries : List (String × String)
deriving DecidableEq

/-- JS `headers.append(k, v)`: adds a pair, keeping existing ones. -/
def headerAppend (h : HeadersM) (k v : String) : HeadersM :=
  ⟨h.entries ++ [(k, v)]⟩

/-- JS `headers.set(k, v)`: drops existing pairs for `k`, then adds one. -/
def headerSet (h : HeadersM) (k v : String) : HeadersM :=
  ⟨h.entries.filter (fun e => !(e.1 == k)) ++ [(k, v)]⟩

/-- All values stored under a name, in insertion order. -/
def headerValues (h : HeadersM) (k : String) : List String :=
  (h.entries.filter (fun e => e.1 == k)).map (fun e => e.2)

/-- JS `headers.get(k)`: `null` when absent, otherwise all values joined
with a comma and a space. -/
def headerGet (h : HeadersM) (k : String) : Option String :=
  match headerValues h k with
  | [] => none
  | vs => some (String.intercalate ", " vs)

/-- An HTTP response as the worker sees it: status, header map, body. -/
structure RespM where
  status : Nat
  headers : HeadersM
  body : String
deriving DecidableEq

/-- The platform cache (`caches.default`), keyed by the derived URL. -/
def CacheStore : Type := String → Option RespM

/-- Outcome of `handlePostRequest`: the response sent to the caller, the
cache store after the (scoped, `event.waitUntil`) write, and whether the
backend (`fetch(hasuraRequest)`) was called. -/
structure HandleResult where
  response : RespM
  store : CacheStore
  backendCalled : Bool

/-- Checks of lines 179–194 of `index.js` factored out: whether a cached
response has expired.  `cacheTTL = parseInt(get('X-Cache-TTL'), 10) || clientTTL`;
when `X-GQL-Cache-Time` is present (and truthy) and parses,
`expired = Math.floor((now - cacheTime) / 1000) > cacheTTL`; an unparseable
time makes the comparison `NaN > cacheTTL`, which is false. -/
def freshnessExpired (hdrs : HeadersM) (clientTTL now : Int) : Bool :=
  match headerGet hdrs "X-GQL-Cache-Time" with
  | none => false
  | some ct =>
    if ct == "" then false
    else
      match jsParseInt10 (some ct) with
      | none => false
      | some tm =>
        Int.fdiv (now - tm) 1000 >
          jsOrElse (jsParseInt10 (headerGet hdrs "X-Cache-TTL")) clientTTL

/-- The POST body and parse of a `/v1/graphql` request, plus its URL path
and `X-Cache-TTL` header. -/
structure FetchEvent where
  path : String
  ttlHeader : Option String
  bodyText : String
  parsedBody : Option JsonVal

/-- Cache-miss (or expired) branch of `handlePostRequest`: fetch the
backend, annotate with `X-GQL-Cache-Time`, `X-Cache-Status`
(EXPIRED on refetch after expiry, MISS otherwise), `Cache-Control` and
`X-Cache-TTL`, and store the annotated response iff its status is 200. -/
def missResult (digest : String → String) (ev : FetchEvent) (store : CacheStore)
    (now : Int) (backend : RespM) (expired : Bool) : HandleResult :=
  let clientTTL := effectiveTTL ev.ttlHeader
  let resp : RespM :=
    { backend with
      headers :=
        headerSet
          (headerSet
            (headerAppend
              (headerAppend backend.headers "X-GQL-Cache-Time" (toString now))
              "X-Cache-Status" (if expired then "EXPIRED" else "MISS"))
            "Cache-Control" ("max-age=" ++ toString clientTTL))
          "X-Cache-TTL" (toString clientTTL) }
  { response := resp
    store :=
      if resp.status == 200 then
        fun k =>
          if k == cacheKeyPath digest ev.path ev.ttlHeader ev.bodyText then some resp
          else store k
      else store
    backendCalled := true }

/-- Cache-hit branch of `handlePostRequest`: re-serve the stored response
with `X-Cache-Status: HIT` appended, plus `X-Cache-Age` and `X-Cache-TTL`
when the stored `X-GQL-Cache-Time` is truthy (an unparseable stored time
yields the JS string `"NaN"` for the age). -/
def hitResult (entry : RespM) (clientTTL now : Int) (store : CacheStore) :
    HandleResult :=
  let h1 := headerAppend entry.headers "X-Cache-Status" "HIT"
  let cacheTTL := jsOrElse (jsParseInt10 (headerGet entry.headers "X-Cache-TTL")) clientTTL
  let h2 :=
    match headerGet entry.headers "X-GQL-Cache-Time" with
    | none => h1
    | some ct =>
      if ct == "" then h1
      else
        headerAppend
          (headerAppend h1 "X-Cache-Age"
            (match jsParseInt10 (some ct) with
             | some tm => toString (Int.fdiv (now - tm) 1000)
             | none => "NaN"))
          "X-Cache-TTL" (toString cacheTTL)
  { response := { entry with headers := h2 }, store := store, backendCalled := false }

/-- `handlePostRequest(event)`: the full query path.  A mutation is forwarded
to the backend, annotated `X-Cache-Status: MUTATION`, and involves no cache
interaction.  A query derives a cache key, looks it up, evaluates freshness,
and either serves the entry (hit) or fetches the backend and stores a
status-200 response (miss / expired). -/
def handlePostRequest (digest : String → String) (ev : FetchEvent)
    (store : CacheStore) (now : Int) (backend : RespM) : HandleResult :=
  if blockMutation ev.parsedBody then
    { response :=
        { backend with headers := headerAppend backend.headers "X-Cache-Status" "MUTATION" }
      store := store
      backendCalled := true }
  else
    match store (cacheKeyPath digest ev.path ev.ttlHeader ev.bodyText) with
    | none => missResult digest ev store now backend false
    | some entry =>
      if freshnessExpired entry.headers (effectiveTTL ev.ttlHeader) now then
        missResult digest ev store now backend true
      else hitResult entry (effectiveTTL ev.ttlHeader) now store

/-- JS `s.split(sep)` for a one-character separator, on character lists. -/
def splitCharAux (sep : Char) : List Char → List Char → List (List Char)
  | [], acc => [acc.reverse]
  | c :: rest, acc =>
    if c == sep then acc.reverse :: splitCharAux sep rest []
    else splitCharAux sep rest (c :: acc)

/-- JS `s.split(sep)` for a one-character separator. -/
def jsSplit (s : String) (sep : Char) : List String :=
  (splitCharAux sep s.data []).map (fun l => ⟨l⟩)

/-- JS `s.trim()`: strip leading and trailing whitespace. -/
def jsTrim (s : String) : String :=
  ⟨((s.data.dropWhile isJsSpace).reverse.dropWhile isJsSpace).reverse⟩

/-- JS `s.startsWith(p)`. -/
def jsStartsWith (s p : String) : Bool :=
  p.data.isPrefixOf s.data

/-- JS `s.includes(c)` / the worker's `HASURA_K8S_CLUSTER_IP.includes('/')`. -/
def jsContainsChar (s : String) (c : Char) : Bool :=
  s.data.contains c

/-- Coarse private-range prefix test of `isIPAllowed`'s CIDR branch. -/
def coarseCidrMatch (network ipS : String) : Bool :=
  (jsStartsWith network "10." && jsStartsWith ipS "10.") ||
  (jsStartsWith network "172." && jsStartsWith ipS "172.") ||
  (jsStartsWith network "192.168." && jsStartsWith ipS "192.168.")

/-- `isIPAllowed(ip)` with the two configuration values
(`ALLOWED_IPS`, `HASURA_K8S_CLUSTER_IP`) made explicit parameters; the
source IP is nullable (`CF-Connecting-IP` etc. may all be missing). -/
def isIPAllowed (allowedIPs k8sClusterIP : Option String) (ip : Option String) :
    Bool :=
  if !jsTruthyOpt allowedIPs && !jsTruthyOpt k8sClusterIP then true
  else
    let allowHit :=
      jsTruthyOpt allowedIPs &&
        (match ip with
         | some s => ((jsSplit (allowedIPs.getD "") ',').map jsTrim).contains s
         | none => false)
    if allowHit then true
    else if jsTruthyOpt k8sClusterIP && jsTruthyOpt ip then
      let k := k8sClusterIP.getD ""
      if jsContainsChar k '/' then
        coarseCidrMatch ((jsSplit k '/').headD "") (ip.getD "")
      else ip.getD "" == k
    else false

/-- Resolution of the client IP in `handleAuthWebhook`:
`CF-Connecting-IP || X-Forwarded-For?.split(',')[0]?.trim() || X-Real-IP`. -/
def resolveClientIP (cf xff xreal : Option String) : Option String :=
  if jsTruthyOpt cf then cf
  else
    let fromXff := xff.map (fun s => jsTrim ((jsSplit s ',').headD ""))
    if jsTruthyOpt fromXff then fromXff else xreal

/-- Result of the auth webhook: HTTP status and the `X-Hasura-Role` value of
the JSON body (`none` for the 403 rejection, whose body is the plain
rejection marker `Forbidden - Invalid source IP`). -/
structure AuthResult where
  status : Nat
  role : Option String
deriving DecidableEq

/-- `handleAuthWebhook(request)`: resolve the source IP, reject with 403 when
the IP filter refuses it, otherwise lower-case the query-parameter keys (the
re-delivered original headers) and answer 200 with the fixed role `user`;
any exception inside the handler (`internalError`) is caught and answered
200 with role `anonymous`. -/
def handleAuthWebhook (allowedIPs k8sClusterIP : Option String)
    (cf xff xreal : Option String) (params : List (String × String))
    (internalError : Bool) : AuthResult :=
  if internalError then { status := 200, role := some "anonymous" }
  else
    let clientIP := resolveClientIP cf xff xreal
    if !isIPAllowed allowedIPs k8sClusterIP clientIP then
      { status := 403, role := none }
    else
      let _hdrs := params.map (fun p => (p.1.toLower, p.2))
      { status := 200, role := some "user" }

/-- Following the spec's words in §4.6: `effectiveEntryTTL = entry.ttlAtStore
if present and > 0 else effectiveTTL`.  Compare with the source's
`parseInt(...) || clientTTL` in `freshnessExpired`, which falls back only on
`NaN` and `0` and keeps a negative stored TTL. -/
def specEntryTTL (storedTTL : Option Int) (clientTTL : Int) : Int :=
  match storedTTL with
  | some n => if n > 0 then n else clientTTL
  | none => clientTTL

theorem headerValues_append_self (h : HeadersM) (k v : String) :
    headerValues (headerAppend h k v) k = headerValues h k ++ [v] := by
  simp [headerValues, headerAppend, List.filter_append]

theorem firstIndexOf_zero_iff (pat l : List Char) :
    firstIndexOf pat l = some 0 ↔ pat.isPrefixOf l = true := by
  cases l with
  | nil =>
    cases pat with
    | nil => simp [firstIndexOf]
    | cons p ps => simp [firstIndexOf, List.isPrefixOf]
  | cons c rest =>
    by_cases h : pat.isPrefixOf (c :: rest) = true
    · simp [firstIndexOf, h]
    · simp only [firstIndexOf, h, if_false, Bool.false_eq_true]
      cases firstIndexOf pat rest <;> simp [h]

theorem jsIndexOf_zero_iff (s pat : String) :
    (jsIndexOf s pat == 0) = true ↔ pat.data <+: s.data := by
  rw [← List.isPrefixOf_iff_prefix, ← firstIndexOf_zero_iff]
  unfold jsIndexOf
  cases h : firstIndexOf pat.data s.data with
  | none => simp [h]
  | some n => simp [h]

example : jsParseInt10 (some "3") = some 3 := by decide
example : jsParseInt10 (some "abc") = none := by decide
example : jsParseInt10 (some " 50x") = some 50 := by decide
example : jsParseInt10 (some "-5") = some (-5) := by decide
example : jsParseInt10 (some "") = none := by decide
example : effectiveTTL (some "3") = 8 := by decide
example : effectiveTTL (some "50") = 50 := by decide
example : keyClientTTL (some "3") = 3 := by decide
example : keyClientTTL none = 8 := by decide
example : cacheKeyPath (fun s => s) "/v1/graphql" (some "3") "B" =
    "/v1/graphql/ttl-3/B" := by decide

/-- Claim C8: the effective TTL of a request is `max(client TTL, 8)` when the
`X-Cache-TTL` header parses to an integer and the 8-second floor otherwise:
an absent header yields 8, `"3"` yields 8, `"50"` yields 50, `"abc"` yields
8, and the effective TTL is always at least 8. -/
theorem effectiveTTL_floor :
    effectiveTTL none = MIN_CACHE_TTL ∧
    effectiveTTL (some "3") = 8 ∧
    effectiveTTL (some "50") = 50 ∧
    effectiveTTL (some "abc") = 8 ∧
    (∀ hdr n, jsParseInt10 hdr = some n → effectiveTTL hdr = max n MIN_CACHE_TTL) ∧
    (∀ hdr, jsParseInt10 hdr = none → effectiveTTL hdr = MIN_CACHE_TTL) ∧
    (∀ hdr, MIN_CACHE_TTL ≤ effectiveTTL hdr) := by
  refine ⟨by decide, by decide, by decide, by decide, ?_, ?_, ?_⟩
  · intro hdr n h
    simp only [effectiveTTL, h, MIN_CACHE_TTL]
    split <;> omega
  · intro hdr h
    simp [effectiveTTL, h]
  · intro hdr
    cases h : jsParseInt10 hdr with
    | none => simp [effectiveTTL, h]
    | some n =>
      simp only [effectiveTTL, h, MIN_CACHE_TTL]
      split <;> omega

theorem effectiveTTL_floor_witness :
    effectiveTTL (some "50") = max 50 MIN_CACHE_TTL :=
  effectiveTTL_floor.2.2.2.2.1 (some "50") 50 (by decide)

/-- Claim C1 counterexample: two requests with the same path, byte-identical
bodies and the same effective TTL (header `"3"` and an absent header both
resolve to the 8-second floor) nevertheless derive different cache keys,
because `createCacheKey` recomputes its TTL as `parseInt(header) || 8`
without applying the floor, so the key digests `ttl-3` and `ttl-8`. -/
theorem cacheKey_not_effectiveTTL_cex :
    effectiveTTL (some "3") = effectiveTTL none ∧
    cacheKeyPath (fun s => s) "/v1/graphql" (some "3") "B" ≠
      cacheKeyPath (fun s => s) "/v1/graphql" none "B" := by
  exact ⟨by decide, by decide⟩

/-- Claim C1 (amended): for every two POST `/v1/graphql` requests with the
same URL path, the same raw key-TTL resolution `parseInt(X-Cache-TTL) || 8`
(which, unlike the effective TTL, does not apply the 8-second floor), and
byte-identical bodies, the cache key derivation produces the same key. -/
theorem cacheKey_determined_by_rawTTL (digest : String → String)
    (path body : String) (h1 h2 : Option String)
    (h : keyClientTTL h1 = keyClientTTL h2) :
    cacheKeyPath digest path h1 body = cacheKeyPath digest path h2 body := by
  unfold cacheKeyPath
  rw [h]

theorem cacheKey_determined_by_rawTTL_witness :
    cacheKeyPath (fun s => s) "/v1/graphql" (some "50") "B" =
      cacheKeyPath (fun s => s) "/v1/graphql" (some " 50x") "B" :=
  cacheKey_determined_by_rawTTL (fun s => s) "/v1/graphql" "B"
    (some "50") (some " 50x") (by decide)

/-- Claim C9: derived cache keys separate distinct TTLs and distinct bodies.
Collision resistance of the digest is idealized as the pointwise hypotheses
that the digests of the two TTL contexts (resp. the two bodies) differ;
under them, distinct TTLs give distinct keys for the same body, and distinct
bodies give distinct keys for the same TTL. -/
theorem cacheKey_separation (digest : String → String)
    (path body b1 b2 : String) (t1 t2 t3 : Int)
    (hT : t1 ≠ t2)
    (hdT : digest ("ttl-" ++ toString t1) ≠ digest ("ttl-" ++ toString t2))
    (hB : b1 ≠ b2)
    (hdB : digest b1 ≠ digest b2) :
    cacheKeyPathTTL digest path t1 body ≠ cacheKeyPathTTL digest path t2 body ∧
    cacheKeyPathTTL digest path t3 b1 ≠ cacheKeyPathTTL digest path t3 b2 := by
  constructor
  · intro h
    apply hdT
    have h' := congrArg String.data h
    simp only [cacheKeyPathTTL, String.data_append, List.append_assoc] at h'
    have h'' := (List.append_right_inj _).mp h'
    have h3 := (List.append_right_inj _).mp h''
    have h4 := (List.append_left_inj _).mp h3
    exact String.ext h4
  · intro h
    apply hdB
    have h' := congrArg String.data h
    simp only [cacheKeyPathTTL, String.data_append, List.append_assoc] at h'
    have h'' := (List.append_right_inj _).mp h'
    have h3 := (List.append_right_inj _).mp h''
    have h4 := (List.append_right_inj _).mp h3
    have h5 := (List.append_right_inj _).mp h4
    exact String.ext h5

theorem cacheKey_separation_witness :
    cacheKeyPathTTL (fun s => s) "/v1/graphql" 3 "B" ≠
      cacheKeyPathTTL (fun s => s) "/v1/graphql" 5 "B" :=
  (cacheKey_separation (fun s => s) "/v1/graphql" "B" "b1" "b2" 3 5 7
    (by decide) (by decide) (by decide) (by decide)).1

/-- Claim C2 counterexample: for an entry whose stored `X-Cache-TTL` is the
negative integer `-1` (stored at time 0, evaluated at time 0, requester's
effective TTL 8), the code classifies the entry Expired (its `|| clientTTL`
fallback only fires on `NaN` and `0`, so the negative TTL is used and
`0 > -1`), while the claim's rule — stored TTL only when greater than zero,
else the effective TTL 8 — gives age `0 ≤ 8`, a Hit. -/
theorem freshness_positive_guard_cex :
    freshnessExpired ⟨[("X-GQL-Cache-Time", "0"), ("X-Cache-TTL", "-1")]⟩ 8 0 = true ∧
    specEntryTTL (jsParseInt10 (some "-1")) 8 = 8 ∧
    ¬(Int.fdiv ((0 : Int) - 0) 1000 > specEntryTTL (jsParseInt10 (some "-1")) 8) := by
  exact ⟨by decide, by decide, by decide⟩

/-- Claim C2 (amended): the freshness evaluation computes the age as
`floor((now - storedAt) / 1000)` whole seconds, uses the entry's stored TTL
when it is present and parses to a nonzero integer (also when negative) and
otherwise the requester's effective TTL, and classifies the entry Expired
exactly when the age strictly exceeds that TTL (an entry with TTL 10 is a
Hit at ages 9 and 10 and Expired at age 11); an Expired entry is treated as
a miss: the backend is fetched and its body, not the cached one, is served. -/
theorem freshness_characterization
    (hdrs : HeadersM) (clientTTL now t : Int) (ct0 : String)
    (hct : headerGet hdrs "X-GQL-Cache-Time" = some ct0)
    (hpt : jsParseInt10 (some ct0) = some t) :
    freshnessExpired ⟨[("X-GQL-Cache-Time", "0"), ("X-Cache-TTL", "10")]⟩ 8 9000 = false ∧
    freshnessExpired ⟨[("X-GQL-Cache-Time", "0"), ("X-Cache-TTL", "10")]⟩ 8 10000 = false ∧
    freshnessExpired ⟨[("X-GQL-Cache-Time", "0"), ("X-Cache-TTL", "10")]⟩ 8 11000 = true ∧
    (freshnessExpired hdrs clientTTL now = true ↔
      Int.fdiv (now - t) 1000 >
        jsOrElse (jsParseInt10 (headerGet hdrs "X-Cache-TTL")) clientTTL) ∧
    (∀ (digest : String → String) (ev : FetchEvent) (store : CacheStore)
        (backend entry : RespM),
      blockMutation ev.parsedBody = false →
      store (cacheKeyPath digest ev.path ev.ttlHeader ev.bodyText) = some entry →
      entry.headers = hdrs →
      freshnessExpired hdrs (effectiveTTL ev.ttlHeader) now = true →
      (handlePostRequest digest ev store now backend).backendCalled = true ∧
      (handlePostRequest digest ev store now backend).response.body = backend.body) := by
  have hne : (ct0 == "") = false := by
    cases h : ct0 == "" with
    | false => rfl
    | true =>
      rw [beq_iff_eq] at h
      subst h
      simp [jsParseInt10, leadingDigitsVal] at hpt
  refine ⟨by decide, by decide, by decide, ?_, ?_⟩
  · simp [freshnessExpired, hct, hne, hpt]
  · intro digest ev store backend entry hq hst he hexp
    rw [← he] at hexp
    simp [handlePostRequest, hq, hst, hexp, missResult]

theorem freshness_characterization_witness :
    freshnessExpired ⟨[("X-GQL-Cache-Time", "0"), ("X-Cache-TTL", "10")]⟩ 8 11000 = true :=
  (freshness_characterization ⟨[("X-GQL-Cache-Time", "0"), ("X-Cache-TTL", "10")]⟩
    8 11000 0 "0" (by decide) (by decide)).2.2.1

/-- Claim C4: the operation classifier parses the body as JSON, extracts the
`query` field, strips all whitespace from it, and classifies the request as
Mutation exactly when the stripped string begins with the literal keyword
`mutation`; a parse failure or an absent or non-string `query` field
classifies as Query (the spec's three examples are included as instances). -/
theorem blockMutation_spec :
    (∀ b, blockMutation b = true ↔
      ∃ fields q, b = some (JsonVal.obj fields) ∧
        List.lookup "query" fields.reverse = some (JsonVal.str q) ∧
        "mutation".data <+: (stripJsWs q).data) ∧
    blockMutation (some (JsonVal.obj [("query", JsonVal.str "  mutation \x7b foo \x7d")])) = true ∧
    blockMutation (some (JsonVal.obj [("query", JsonVal.str "\x7b users \x7b id \x7d \x7d")])) = false ∧
    blockMutation none = false := by
  refine ⟨?_, by decide, by decide, by decide⟩
  intro b
  cases b with
  | none => simp [blockMutation]
  | some v =>
    cases v with
    | obj fields =>
      cases hl : List.lookup "query" fields.reverse with
      | none => simp [blockMutation, hl]
      | some jv =>
        cases jv with
        | str q =>
          have hx : jsIndexOf (stripJsWs q) "mutation" = 0 ↔
              "mutation".data <+: (stripJsWs q).data := by
            rw [← jsIndexOf_zero_iff]
            simp
          simp [blockMutation, hl, hx]
        | null => simp [blockMutation, hl]
        | bool x => simp [blockMutation, hl]
        | num x => simp [blockMutation, hl]
        | arr xs => simp [blockMutation, hl]
        | obj fs => simp [blockMutation, hl]
    | null => simp [blockMutation]
    | bool x => simp [blockMutation]
    | num x => simp [blockMutation]
    | str s => simp [blockMutation]
    | arr xs => simp [blockMutation]

theorem blockMutation_spec_witness :
    blockMutation (some (JsonVal.obj [("query", JsonVal.str "mutation q")])) = true :=
  (blockMutation_spec.1 _).mpr
    ⟨[("query", JsonVal.str "mutation q")], "mutation q", rfl, rfl, by decide⟩

/-- Freshness expiry is monotone in the clock: an entry expired at `now`
stays expired at every later `now2` (the stored time and TTL are fixed and
the floored age can only grow). -/
theorem freshnessExpired_mono (hdrs : HeadersM) (ttl now now2 : Int)
    (hle : now ≤ now2)
    (h : freshnessExpired hdrs ttl now = true) :
    freshnessExpired hdrs ttl now2 = true := by
  cases hct : headerGet hdrs "X-GQL-Cache-Time" with
  | none => simp [freshnessExpired, hct] at h
  | some ct =>
    by_cases he : ct = ""
    · subst he
      simp [freshnessExpired, hct] at h
    · cases hp : jsParseInt10 (some ct) with
      | none => simp [freshnessExpired, hct, he, hp] at h
      | some tm =>
        simp only [freshnessExpired, hct, he, hp] at h ⊢
        simp only [beq_iff_eq, he, if_false, decide_eq_true_eq] at h ⊢
        have hm : Int.fdiv (now - tm) 1000 ≤ Int.fdiv (now2 - tm) 1000 := by
          rw [Int.fdiv_eq_ediv _ (by norm_num), Int.fdiv_eq_ediv _ (by norm_num)]
          exact Int.ediv_le_ediv (by norm_num) (by omega)
        omega

/-- Relay, store and repeat behavior of the fetch-backend branch
(`missResult`), shared by the physical-miss and expired-entry entries into
it: the backend status and body are relayed, the annotated response is
stored under the derived key iff its status is 200, and otherwise the store
is unchanged. -/
theorem missResult_spec (digest : String → String) (ev : FetchEvent)
    (store : CacheStore) (now : Int) (backend : RespM) (expired : Bool) :
    (missResult digest ev store now backend expired).backendCalled = true ∧
    (missResult digest ev store now backend expired).response.status = backend.status ∧
    (missResult digest ev store now backend expired).response.body = backend.body ∧
    (backend.status = 200 →
      (missResult digest ev store now backend expired).store
          (cacheKeyPath digest ev.path ev.ttlHeader ev.bodyText) =
        some (missResult digest ev store now backend expired).response) ∧
    (backend.status ≠ 200 →
      (missResult digest ev store now backend expired).store = store) := by
  refine ⟨rfl, rfl, rfl, ?_, ?_⟩
  · intro h200
    simp [missResult, h200]
  · intro hny
    have hb : (backend.status == 200) = false := by simp [hny]
    simp [missResult, hb]

/-- Claim C3: on the query path, a backend response — reached on a physical
cache miss or on an expired entry (the two entries into the fetch branch) —
is relayed to the caller (its status and body), is written to the cache
store iff its HTTP status is 200, and when it is not stored the store is
unchanged, so a repeat of the same request at the same or any later time
triggers another backend fetch instead of a cache hit. -/
theorem store_only_200
    (digest : String → String) (ev : FetchEvent) (store : CacheStore)
    (now : Int) (backend : RespM)
    (hq : blockMutation ev.parsedBody = false)
    (hme : store (cacheKeyPath digest ev.path ev.ttlHeader ev.bodyText) = none ∨
      ∃ entry,
        store (cacheKeyPath digest ev.path ev.ttlHeader ev.bodyText) = some entry ∧
        freshnessExpired entry.headers (effectiveTTL ev.ttlHeader) now = true) :
    (handlePostRequest digest ev store now backend).backendCalled = true ∧
    (handlePostRequest digest ev store now backend).response.status = backend.status ∧
    (handlePostRequest digest ev store now backend).response.body = backend.body ∧
    (backend.status = 200 →
      (handlePostRequest digest ev store now backend).store
          (cacheKeyPath digest ev.path ev.ttlHeader ev.bodyText) =
        some (handlePostRequest digest ev store now backend).response) ∧
    (backend.status ≠ 200 →
      (handlePostRequest digest ev store now backend).store = store ∧
      ∀ (now2 : Int) (backend2 : RespM), now ≤ now2 →
        (handlePostRequest digest ev
            (handlePostRequest digest ev store now backend).store now2
            backend2).backendCalled = true) := by
  have hred : ∃ e, handlePostRequest digest ev store now backend =
      missResult digest ev store now backend e := by
    rcases hme with hmiss | ⟨entry, hst, hexp⟩
    · exact ⟨false, by simp [handlePostRequest, hq, hmiss]⟩
    · exact ⟨true, by simp [handlePostRequest, hq, hst, hexp]⟩
  obtain ⟨e, hred⟩ := hred
  obtain ⟨hc, hst2, hbd, h200, hny⟩ := missResult_spec digest ev store now backend e
  rw [hred]
  refine ⟨hc, hst2, hbd, h200, ?_⟩
  intro hn
  have hs := hny hn
  refine ⟨hs, ?_⟩
  intro now2 backend2 hle
  rw [hs]
  rcases hme with hmiss | ⟨entry, hst, hexp⟩
  · simp [handlePostRequest, hq, hmiss, missResult]
  · have hexp2 := freshnessExpired_mono entry.headers (effectiveTTL ev.ttlHeader)
      now now2 hle hexp
    simp [handlePostRequest, hq, hst, hexp2, missResult]

theorem store_only_200_witness :
    (handlePostRequest (fun s => s)
      ⟨"/v1/graphql", none, "B", some (JsonVal.obj [("query", JsonVal.str "q")])⟩
      (fun k => if k == "/v1/graphql/ttl-8/B" then
          some ⟨200, ⟨[("X-GQL-Cache-Time", "0"), ("X-Cache-TTL", "8")]⟩, "old"⟩
        else none) 20000 ⟨500, ⟨[]⟩, "err"⟩).backendCalled = true :=
  (store_only_200 (fun s => s)
    ⟨"/v1/graphql", none, "B", some (JsonVal.obj [("query", JsonVal.str "q")])⟩
    (fun k => if k == "/v1/graphql/ttl-8/B" then
        some ⟨200, ⟨[("X-GQL-Cache-Time", "0"), ("X-Cache-TTL", "8")]⟩, "old"⟩
      else none) 20000 ⟨500, ⟨[]⟩, "err"⟩ (by decide)
    (Or.inr ⟨⟨200, ⟨[("X-GQL-Cache-Time", "0"), ("X-Cache-TTL", "8")]⟩, "old"⟩,
      by decide, by decide⟩)).1

/-- Claim C5: the authorization webhook answers 403 when the resolved source
IP fails the IP filter, 200 with role `user` when it is allowed, and 200
with role `anonymous` on any internal failure. -/
theorem authWebhook_outcomes (allowedIPs k8sClusterIP cf xff xreal : Option String)
    (params : List (String × String)) :
    handleAuthWebhook allowedIPs k8sClusterIP cf xff xreal params true =
      { status := 200, role := some "anonymous" } ∧
    (isIPAllowed allowedIPs k8sClusterIP (resolveClientIP cf xff xreal) = false →
      handleAuthWebhook allowedIPs k8sClusterIP cf xff xreal params false =
        { status := 403, role := none }) ∧
    (isIPAllowed allowedIPs k8sClusterIP (resolveClientIP cf xff xreal) = true →
      handleAuthWebhook allowedIPs k8sClusterIP cf xff xreal params false =
        { status := 200, role := some "user" }) := by
  refine ⟨rfl, ?_, ?_⟩ <;> intro h <;> simp [handleAuthWebhook, h]

theorem authWebhook_outcomes_witness :
    handleAuthWebhook none none (some "1.2.3.4") none none [] false =
      { status := 200, role := some "user" } :=
  (authWebhook_outcomes none none (some "1.2.3.4") none none []).2.2 (by decide)

/-- Claim C6: a request classified as a mutation is forwarded to the backend
and annotated `X-Cache-Status: MUTATION`; the cache store is neither read
(the result does not depend on the store) nor written (the store is
returned unchanged), so a key that missed before still misses. -/
theorem mutation_bypasses_cache (digest : String → String) (ev : FetchEvent)
    (store : CacheStore) (now : Int) (backend : RespM)
    (hm : blockMutation ev.parsedBody = true) :
    (handlePostRequest digest ev store now backend).response =
      { backend with
        headers := headerAppend backend.headers "X-Cache-Status" "MUTATION" } ∧
    headerValues (handlePostRequest digest ev store now backend).response.headers
        "X-Cache-Status" =
      headerValues backend.headers "X-Cache-Status" ++ ["MUTATION"] ∧
    (handlePostRequest digest ev store now backend).store = store ∧
    (handlePostRequest digest ev store now backend).backendCalled = true ∧
    (∀ store2 : CacheStore,
      (handlePostRequest digest ev store2 now backend).response =
        (handlePostRequest digest ev store now backend).response) ∧
    (∀ k, store k = none →
      (handlePostRequest digest ev store now backend).store k = none) := by
  refine ⟨?_, ?_, ?_, ?_, ?_, ?_⟩
  · simp [handlePostRequest, hm]
  · simp [handlePostRequest, hm, headerValues_append_self]
  · simp [handlePostRequest, hm]
  · simp [handlePostRequest, hm]
  · intro store2
    simp [handlePostRequest, hm]
  · intro k hk
    simp [handlePostRequest, hm, hk]

theorem mutation_bypasses_cache_witness :
    (handlePostRequest (fun s => s)
      ⟨"/v1/graphql", none, "M", some (JsonVal.obj [("query", JsonVal.str "mutation m")])⟩
      (fun _ => none) 0 ⟨200, ⟨[]⟩, "r"⟩).store = (fun _ => none) :=
  (mutation_bypasses_cache (fun s => s)
    ⟨"/v1/graphql", none, "M", some (JsonVal.obj [("query", JsonVal.str "mutation m")])⟩
    (fun _ => none) 0 ⟨200, ⟨[]⟩, "r"⟩ (by decide)).2.2.1

/-- Claim C7: the IP filter permits all when neither configuration value is
set; permits an IP listed (after trimming) in the configured allow-list;
for a CIDR-like `network/prefix` rule matches only by the coarse `10.` /
`172.` / `192.168.` leading-prefix heuristic and for a bare-IP rule requires
exact equality; and refuses in every other case (full characterization,
plus the spec's three examples). -/
theorem isIPAllowed_spec :
    isIPAllowed none none (some "1.2.3.4") = true ∧
    isIPAllowed (some "10.0.0.1") none (some "10.0.0.1") = true ∧
    isIPAllowed (some "10.0.0.1") none (some "10.0.0.2") = false ∧
    ∀ (allowedIPs k8sClusterIP ip : Option String),
      isIPAllowed allowedIPs k8sClusterIP ip = true ↔
        ((jsTruthyOpt allowedIPs = false ∧ jsTruthyOpt k8sClusterIP = false) ∨
         (jsTruthyOpt allowedIPs = true ∧ ∃ s, ip = some s ∧
            s ∈ (jsSplit (allowedIPs.getD "") ',').map jsTrim) ∨
         (jsTruthyOpt k8sClusterIP = true ∧ jsTruthyOpt ip = true ∧
            jsContainsChar (k8sClusterIP.getD "") '/' = true ∧
            coarseCidrMatch ((jsSplit (k8sClusterIP.getD "") '/').headD "")
              (ip.getD "") = true) ∨
         (jsTruthyOpt k8sClusterIP = true ∧ jsTruthyOpt ip = true ∧
            jsContainsChar (k8sClusterIP.getD "") '/' = false ∧
            ip = some (k8sClusterIP.getD ""))) := by
  refine ⟨by decide, by decide, by decide, ?_⟩
  intro A K ip
  cases ip with
  | none =>
    unfold isIPAllowed
    cases hA : jsTruthyOpt A <;> cases hK : jsTruthyOpt K <;> simp [jsTruthyOpt]
  | some s =>
    unfold isIPAllowed
    cases hA : jsTruthyOpt A <;> cases hK : jsTruthyOpt K <;>
      by_cases hm : ((jsSplit (A.getD "") ',').map jsTrim).contains s = true <;>
        by_cases hse : (s == "") = true <;>
          by_cases hsl : jsContainsChar (K.getD "") '/' = true <;>
            simp_all [jsTruthyOpt, List.elem_iff]
theorem isIPAllowed_spec_witness :
    isIPAllowed none (some "10.0.0.0/8") (some "10.1.2.3") = true :=
  (isIPAllowed_spec.2.2.2 none (some "10.0.0.0/8") (some "10.1.2.3")).mpr
    (Or.inr (Or.inr (Or.inl ⟨by decide, by decide, by decide, by decide⟩)))

/-- Scenario for the cache-hit path: a plain query (no `X-Cache-TTL` header,
body `B`) against an empty cache, answered by a status-200 backend. -/
def hitScenarioEvent : FetchEvent :=
  ⟨"/v1/graphql", none, "B", some (JsonVal.obj [("query", JsonVal.str "q")])⟩

/-- Backend response for the cache-hit scenario. -/
def hitScenarioBackend : RespM := ⟨200, ⟨[]⟩, "resp"⟩

/-- First request of the scenario, at time 0: a miss that populates the
cache. -/
def hitScenarioFirst : HandleResult :=
  handlePostRequest (fun s => s) hitScenarioEvent (fun _ => none) 0 hitScenarioBackend

/-- Second, identical request at time 5000 ms: served from the cache. -/
def hitScenarioSecond : HandleResult :=
  handlePostRequest (fun s => s) hitScenarioEvent hitScenarioFirst.store 5000
    hitScenarioBackend

/-- Claim C10: contrary to the claim, a response served from cache on the
HIT path does not report the single value `HIT`.  The entry was stored with
its `X-Cache-Status: MISS` annotation (the response is annotated before
`cache.put`) and the hit path only appends `HIT`, so the served response
carries the two values MISS and HIT and `Headers.get` reports `MISS, HIT`;
the first (miss) response does carry the single value MISS and the second
request is a genuine hit (no backend call). -/
theorem hit_response_double_status :
    headerValues hitScenarioFirst.response.headers "X-Cache-Status" = ["MISS"] ∧
    headerValues hitScenarioSecond.response.headers "X-Cache-Status" =
      ["MISS", "HIT"] ∧
    headerGet hitScenarioSecond.response.headers "X-Cache-Status" =
      some "MISS, HIT" ∧
    hitScenarioSecond.backendCalled = false := by
  exact ⟨by decide, by decide, by decide, by decide⟩

end CFWorker
